import Mathlib

/-!
Verification of the AreaScan profiler client/transport layer
(`src/clients/inference_client.py`) and the CLI batch runner
(`src/areascan_profiler.py`).

The Python code is shallowly embedded: protobuf float fields are modelled
as rationals, byte buffers as lists of naturals, the gRPC stub as an
explicit outcome value (a normal response, an RPC error carrying a status
code and detail string, or another exception), and exception-raising code
as `Except`-valued functions.
-/

namespace AreaScan

/-! ## Data model: predictions, requests and results -/

/-- A prediction message of a `DetectObjects` response: the fields the
client reads (`prediction_class`, `confidence`, `center_x`, `center_y`,
`width`, `height`). -/
structure PbPrediction where
  prediction_class : String
  confidence : ℚ
  center_x : ℚ
  center_y : ℚ
  width : ℚ
  height : ℚ
deriving Repr, DecidableEq

/-- A point of a segmentation polygon (`pt.x`, `pt.y`). -/
structure PbPoint where
  x : ℚ
  y : ℚ
deriving Repr, DecidableEq

/-- A prediction message of a `SegmentSheets` response: same fields as a
detection prediction plus `polygon_points`. -/
structure PbSegPrediction where
  prediction_class : String
  confidence : ℚ
  center_x : ℚ
  center_y : ℚ
  width : ℚ
  height : ℚ
  polygon_points : List PbPoint
deriving Repr, DecidableEq

/-- The dictionary built per kept prediction in `detect_objects`
(keys: class, confidence, center_x, center_y, width, height). -/
structure DetectDict where
  «class» : String
  confidence : ℚ
  center_x : ℚ
  center_y : ℚ
  width : ℚ
  height : ℚ
deriving Repr, DecidableEq

/-- The dictionary built per kept prediction in `segment_sheets`:
the detection keys plus `polygon_points`, converted to coordinate pairs. -/
structure SegDict where
  «class» : String
  confidence : ℚ
  center_x : ℚ
  center_y : ℚ
  width : ℚ
  height : ℚ
  polygon_points : List (ℚ × ℚ)
deriving Repr, DecidableEq

/-- Embedding of the dict comprehension body in `detect_objects`. -/
def detectDict (p : PbPrediction) : DetectDict :=
  { «class» := p.prediction_class
    confidence := p.confidence
    center_x := p.center_x
    center_y := p.center_y
    width := p.width
    height := p.height }

/-- Embedding of the dict comprehension body in `segment_sheets`;
`polygon_points` becomes the list of `(pt.x, pt.y)` pairs. -/
def segDict (p : PbSegPrediction) : SegDict :=
  { «class» := p.prediction_class
    confidence := p.confidence
    center_x := p.center_x
    center_y := p.center_y
    width := p.width
    height := p.height
    polygon_points := p.polygon_points.map (fun pt => (pt.x, pt.y)) }

/-- The dictionary returned by `detect_objects` on success
(`prediction_count` and `predictions`). -/
structure DetectResult where
  prediction_count : ℕ
  predictions : List DetectDict
deriving Repr, DecidableEq

/-- The dictionary returned by `segment_sheets` on success. -/
structure SegResult where
  prediction_count : ℕ
  predictions : List SegDict
deriving Repr, DecidableEq

/-- Success path of `detect_objects`: the list comprehension filters the
response predictions by `pred.confidence >= confidence_threshold` (in
response order) and maps each kept prediction to its dict; the returned
dict pairs the filtered list with its length. -/
def detect_objects_result (confidence_threshold : ℚ)
    (response_predictions : List PbPrediction) : DetectResult :=
  let predictions :=
    (response_predictions.filter
      (fun pred => confidence_threshold ≤ pred.confidence)).map detectDict
  { prediction_count := predictions.length
    predictions := predictions }

/-- Success path of `segment_sheets`: same filter, with the segmentation
dict (including polygon points). -/
def segment_sheets_result (confidence_threshold : ℚ)
    (response_predictions : List PbSegPrediction) : SegResult :=
  let predictions :=
    (response_predictions.filter
      (fun pred => confidence_threshold ≤ pred.confidence)).map segDict
  { prediction_count := predictions.length
    predictions := predictions }

/-! ## The gRPC stub as an explicit outcome -/

/-- Outcome of one stub invocation: either a response, or a `grpc.RpcError`
carrying a status code and a detail string (a deadline expiry surfaces as
an `RpcError` with code DEADLINE_EXCEEDED), or some other exception. -/
inductive ServiceOutcome (α : Type) where
  | response (resp : α)
  | rpcError (code : String) (details : String)
  | otherError (msg : String)
deriving Repr, DecidableEq

/-- Embedding of `detect_objects`: on a response, filter and wrap; on `grpc.RpcError`,
raise `Exception(f"Object detection failed: {code} - {details}")`.
Any other exception from the body propagates unhandled. -/
def detect_objects (confidence_threshold : ℚ)
    (outcome : ServiceOutcome (List PbPrediction)) : Except String DetectResult :=
  match outcome with
  | .response resp => .ok (detect_objects_result confidence_threshold resp)
  | .rpcError code details =>
      .error ("Object detection failed: " ++ code ++ " - " ++ details)
  | .otherError msg => .error msg

/-- Embedding of `segment_sheets`: same shape, with its own error message. -/
def segment_sheets (confidence_threshold : ℚ)
    (outcome : ServiceOutcome (List PbSegPrediction)) : Except String SegResult :=
  match outcome with
  | .response resp => .ok (segment_sheets_result confidence_threshold resp)
  | .rpcError code details =>
      .error ("Sheet segmentation failed: " ++ code ++ " - " ++ details)
  | .otherError msg => .error msg

/-- One stub invocation against a trace of pending outcomes: consumes
exactly the head. An exhausted trace behaves as an unavailable channel. -/
def stubCall {α : Type} (noResponse : ServiceOutcome α) :
    List (ServiceOutcome α) → ServiceOutcome α × List (ServiceOutcome α)
  | [] => (noResponse, [])
  | o :: rest => (o, rest)

/-- A `detect_objects` call run against a trace of service outcomes:
the body invokes the stub once (`self.stub.DetectObjects(request, ...)`)
and never loops back, so exactly one outcome is consumed. -/
def detect_objects_run (confidence_threshold : ℚ)
    (trace : List (ServiceOutcome (List PbPrediction))) :
    Except String DetectResult × List (ServiceOutcome (List PbPrediction)) :=
  let (outcome, rest) := stubCall (.rpcError "UNAVAILABLE" "channel is closed") trace
  (detect_objects confidence_threshold outcome, rest)

/-- A `segment_sheets` call run against a trace of service outcomes. -/
def segment_sheets_run (confidence_threshold : ℚ)
    (trace : List (ServiceOutcome (List PbSegPrediction))) :
    Except String SegResult × List (ServiceOutcome (List PbSegPrediction)) :=
  let (outcome, rest) := stubCall (.rpcError "UNAVAILABLE" "channel is closed") trace
  (segment_sheets confidence_threshold outcome, rest)

/-! ## Requests and call parameters -/

/-- The `DetectObjectsRequest` / `SegmentSheetsRequest` fields the client
sets: `id`, `image_bytes`, `image_height`, `image_width`, `channels`. -/
structure InferenceRequest where
  id : String
  image_bytes : List ℕ
  image_height : ℤ
  image_width : ℤ
  channels : ℕ
deriving Repr, DecidableEq

/-- A stub invocation: the request plus the `timeout=` argument. -/
structure RpcCall where
  request : InferenceRequest
  timeoutSeconds : ℚ
deriving Repr, DecidableEq

/-- Request construction shared by `detect_objects` and `segment_sheets`:
`id=str(uuid.uuid4())` drawn fresh from the uuid supply, the caller's
bytes and dimensions, `channels=3`, and `timeout=30.0` on the invocation.
`uuidSupply n` is the value the uuid generator yields for the client's
`n`-th inference call. -/
def inference_call (uuidSupply : ℕ → String) (callIndex : ℕ)
    (image_bytes : List ℕ) (width height : ℤ) : RpcCall :=
  { request :=
      { id := uuidSupply callIndex
        image_bytes := image_bytes
        image_height := height
        image_width := width
        channels := 3 }
    timeoutSeconds := 30 }

/-! ## Health check -/

/-- The `HealthCheckResponse.status` enum values the client can see. -/
inductive HealthStatus where
  | unknown
  | serving
  | notServing
deriving Repr, DecidableEq

/-- Embedding of `check_health`: builds a `HealthCheckRequest`, calls `Check` with
`timeout=5.0`, and returns `response.status == SERVING`; both the
`grpc.RpcError` handler and the catch-all `Exception` handler print and
return `False`, so no outcome raises. -/
def check_health (outcome : ServiceOutcome HealthStatus) : Bool :=
  match outcome with
  | .response status => status == HealthStatus.serving
  | .rpcError _ _ => false
  | .otherError _ => false

/-- The `timeout=` argument of the health probe. -/
def healthCheckTimeoutSeconds : ℚ := 5

/-! ## Configuration resolver -/

/-- A JSON value as far as the port lookup cares: the nested
`ServerPort` entry may hold any JSON scalar. -/
inductive JsonVal where
  | null
  | jbool (b : Bool)
  | num (n : ℤ)
  | str (s : String)
deriving Repr, DecidableEq

/-- Python truthiness of the looked-up value, as tested by `if port:`. -/
def JsonVal.truthy : JsonVal → Bool
  | .null => false
  | .jbool b => b
  | .num n => n != 0
  | .str s => !(s == "")

/-- State of one candidate configuration file as the resolver sees it:
the path does not exist; opening, `json.load` or the nested lookup raises
(malformed JSON, wrong shape — caught and logged by the `except` clause);
or the file parses and the nested
`ApplicationGrpcSettings.GrpcServices.AreaScanInference.ServerPort`
lookup yields `some` value or `none` when a key on the path is absent
(`dict.get` chains default to empty dicts and end in `None`). -/
inductive ConfigFileState where
  | missing
  | readError
  | parsed (port : Option JsonVal)
deriving Repr, DecidableEq

/-- What one loop iteration of `_get_port_from_config` contributes:
`some v` exactly when the file exists, reads cleanly, and the looked-up
value is truthy (`if port: return port`); otherwise the loop moves on. -/
def portFromFile : ConfigFileState → Option JsonVal
  | .missing => none
  | .readError => none
  | .parsed none => none
  | .parsed (some v) => if v.truthy then some v else none

/-- Embedding of `_get_port_from_config`: scan the candidate files in order, return the
first truthy configured value, else fall back to the default 60021. -/
def get_port_from_config : List ConfigFileState → JsonVal
  | [] => .num 60021
  | s :: rest =>
      match portFromFile s with
      | some v => v
      | none => get_port_from_config rest

/-- Port resolution in `__init__`: `if port is None: port =
self._get_port_from_config()`; an explicit port is used unchanged and the
configuration files are never consulted. -/
def resolvePort (explicitPort : Option ℤ) (configFiles : List ConfigFileState) :
    JsonVal :=
  match explicitPort with
  | some p => .num p
  | none => get_port_from_config configFiles

/-! ## Channel, client state and close -/

/-- The fixed options list passed to `grpc.insecure_channel`. -/
def channelOptions : List (String × ℤ) :=
  [("grpc.max_receive_message_length", 52428800),
   ("grpc.max_send_message_length", 52428800),
   ("grpc.keepalive_time_ms", 10000),
   ("grpc.keepalive_timeout_ms", 5000)]

/-- The `self.channel` attribute of a client object: `unset` when
`__init__` raised before the assignment on the `grpc.insecure_channel`
line (the attribute was never created), or a channel object together with
its gRPC-level closed flag (`grpc.Channel.close` is idempotent; the
Python code never rebinds `self.channel`, so the object stays truthy). -/
inductive ChannelAttr where
  | unset
  | chan (closed : Bool)
deriving Repr, DecidableEq

/-- A constructed client: fields assigned by `__init__`. -/
structure Client where
  port : JsonVal
  host : String
  options : List (String × ℤ)
  channel : ChannelAttr
deriving Repr, DecidableEq

/-- Embedding of `__init__` after a successful channel creation: resolves the port,
stores host and port, and opens the channel with the fixed options. -/
def initClient (explicitPort : Option ℤ) (host : String)
    (configFiles : List ConfigFileState) : Client :=
  { port := resolvePort explicitPort configFiles
    host := host
    options := channelOptions
    channel := .chan false }

/-- Observable side effects of `close`. -/
inductive Effect where
  | channelCloseCall
  | printed (s : String)
deriving Repr, DecidableEq

/-- Embedding of `close`: `if self.channel:` then `self.channel.close()` and a print.
Reading `self.channel` on an object whose `__init__` failed before the
attribute assignment raises `AttributeError`; a channel object is always
truthy, so every later call re-invokes `channel.close()` (a gRPC no-op
once closed) and re-prints. -/
def Client.close (c : Client) : Except String (Client × List Effect) :=
  match c.channel with
  | .unset =>
      .error "AttributeError: InferenceClient object has no attribute channel"
  | .chan _ =>
      .ok ({ c with channel := .chan true },
           [.channelCloseCall, .printed "Closed connection"])

/-! ## CLI batch runner (`areascan_profiler.main`) -/

/-- One run of the CLI `main` body: the exit status it returns and the
per-image processing outcomes of the loop (`true` = the `try` body
completed, `false` = the `except` clause caught an error and continued). -/
structure CliRun where
  exitCode : ℤ
  processed : List Bool
deriving Repr, DecidableEq

/-- The body of `areascan_profiler.main`, abstracted over its environment:
whether `InferenceClient(...)` construction succeeded, what
`check_health()` returned, the `--image` argument, the glob result when
`--folder` was given, and the per-image outcome of the processing `try`
block. Setup failures return 1 before the loop; the loop catches every
per-image exception and continues; completion returns 0. -/
def cliMain (clientInitOk : Bool) (healthy : Bool)
    (image : Option String) (folderImages : Option (List String))
    (processOk : String → Bool) : CliRun :=
  if !clientInitOk then
    { exitCode := 1, processed := [] }
  else if !healthy then
    { exitCode := 1, processed := [] }
  else
    let imagePaths? : Option (List String) :=
      match image with
      | some img => some [img]
      | none =>
          match folderImages with
          | some imgs => some imgs
          | none => none
    match imagePaths? with
    | none => { exitCode := 1, processed := [] }
    | some imagePaths =>
        if imagePaths.isEmpty then
          { exitCode := 1, processed := [] }
        else
          { exitCode := 0, processed := imagePaths.map processOk }

/-- A concrete detection response with confidences 0.95, 0.4, 0.91 (the
scenario of the spec). -/
def sampleDetectResponse : List PbPrediction :=
  [{ prediction_class := "sheet", confidence := mkRat 95 100,
     center_x := 0, center_y := 0, width := 1, height := 1 },
   { prediction_class := "sheet", confidence := mkRat 4 10,
     center_x := 0, center_y := 0, width := 1, height := 1 },
   { prediction_class := "sheet", confidence := mkRat 91 100,
     center_x := 0, center_y := 0, width := 1, height := 1 }]

/-! ## Theorems -/

/-- C1: for every confidence threshold `t` and every service response,
`detect_objects` and `segment_sheets` return the predictions of the
response with confidence ≥ `t`, in original response order (in
particular, when every confidence is nonnegative a threshold of 0 keeps
everything), with `prediction_count` equal to the length of the filtered
sequence and no returned prediction below the threshold. -/
theorem filter_spec_detect_and_segment (t : ℚ) (P : List PbPrediction)
    (Q : List PbSegPrediction) :
    (detect_objects_result t P).predictions
      = (P.filter (fun p => t ≤ p.confidence)).map detectDict
    ∧ (detect_objects_result t P).prediction_count
      = (detect_objects_result t P).predictions.length
    ∧ (∀ d ∈ (detect_objects_result t P).predictions, ¬ d.confidence < t)
    ∧ (P.filter (fun p => t ≤ p.confidence)).Sublist P
    ∧ ((∀ p ∈ P, 0 ≤ p.confidence) →
        (detect_objects_result 0 P).predictions = P.map detectDict)
    ∧ (segment_sheets_result t Q).predictions
      = (Q.filter (fun q => t ≤ q.confidence)).map segDict
    ∧ (segment_sheets_result t Q).prediction_count
      = (segment_sheets_result t Q).predictions.length
    ∧ (∀ d ∈ (segment_sheets_result t Q).predictions, ¬ d.confidence < t)
    ∧ ((∀ q ∈ Q, 0 ≤ q.confidence) →
        (segment_sheets_result 0 Q).predictions = Q.map segDict) := by
  refine ⟨rfl, rfl, ?_, List.filter_sublist P, ?_, rfl, rfl, ?_, ?_⟩
  · intro d hd
    simp only [detect_objects_result, List.mem_map, List.mem_filter,
      decide_eq_true_eq] at hd
    obtain ⟨p, ⟨_, hp⟩, rfl⟩ := hd
    simpa [detectDict] using hp
  · intro hP
    have : P.filter (fun p => (0 : ℚ) ≤ p.confidence) = P :=
      List.filter_eq_self.mpr (fun p hp => by simpa using hP p hp)
    simp [detect_objects_result, this]
  · intro d hd
    simp only [segment_sheets_result, List.mem_map, List.mem_filter,
      decide_eq_true_eq] at hd
    obtain ⟨q, ⟨_, hq⟩, rfl⟩ := hd
    simpa [segDict] using hq
  · intro hQ
    have : Q.filter (fun q => (0 : ℚ) ≤ q.confidence) = Q :=
      List.filter_eq_self.mpr (fun q hq => by simpa using hQ q hq)
    simp [segment_sheets_result, this]

/-- The spec scenario for C1: confidences [0.95, 0.4, 0.91], threshold
0.9 — two predictions kept, in original order. -/
theorem filter_spec_witness :
    (∀ p ∈ sampleDetectResponse, (0 : ℚ) ≤ p.confidence)
    ∧ (detect_objects_result (mkRat 9 10) sampleDetectResponse).prediction_count
        = 2
    ∧ (detect_objects_result (mkRat 9 10)
        sampleDetectResponse).predictions.map DetectDict.confidence
        = [mkRat 95 100, mkRat 91 100]
    ∧ (detect_objects_result 0 sampleDetectResponse).predictions
        = sampleDetectResponse.map detectDict :=
  ⟨by decide, by decide, by decide,
    (filter_spec_detect_and_segment (mkRat 9 10)
      sampleDetectResponse []).2.2.2.2.1 (by decide)⟩

/-- C2: `check_health` is a total boolean predicate over every probe
outcome — RPC failure (timeouts included), any other exception, or a
response — and returns `true` exactly on an explicit SERVING status. -/
theorem check_health_true_iff_serving (o : ServiceOutcome HealthStatus) :
    check_health o = true ↔ o = .response .serving := by
  cases o with
  | response s => cases s <;> simp [check_health]
  | rpcError code details => simp [check_health]
  | otherError msg => simp [check_health]

/-- Witness for C2: a serving response yields true; an RPC failure yields
false. -/
theorem check_health_witness :
    check_health (.response .serving) = true
    ∧ check_health (.rpcError "UNAVAILABLE" "connection refused") = false :=
  ⟨(check_health_true_iff_serving (.response .serving)).mpr rfl, by decide⟩

/-- C3: with no explicit port, resolution is total and yields the default
60021 when every candidate file is missing, unreadable/malformed, or
lacks the nested ServerPort key, and yields the configured value when a
candidate holds a valid (positive integer) port. -/
theorem resolve_port_states (n : ℤ) (hn : 0 < n)
    (rest : List ConfigFileState) :
    resolvePort none (.missing :: rest) = resolvePort none rest
    ∧ resolvePort none (.readError :: rest) = resolvePort none rest
    ∧ resolvePort none (.parsed none :: rest) = resolvePort none rest
    ∧ resolvePort none (.parsed (some (.num n)) :: rest) = .num n
    ∧ resolvePort none [] = .num 60021
    ∧ (∀ states : List ConfigFileState,
        (∀ s ∈ states, s = ConfigFileState.missing ∨ s = .readError
          ∨ s = .parsed none) →
        resolvePort none states = .num 60021) := by
  have htruthy : (JsonVal.num n).truthy = true := by
    simp [JsonVal.truthy]
    omega
  refine ⟨rfl, rfl, rfl, ?_, rfl, ?_⟩
  · simp [resolvePort, get_port_from_config, portFromFile, htruthy]
  · intro states hstates
    induction states with
    | nil => rfl
    | cons s rest ih =>
        have hs := hstates s (by simp)
        have hrest := ih (fun u hu => hstates u (by simp [hu]))
        rcases hs with h | h | h <;>
          simp [resolvePort, get_port_from_config, portFromFile, h] <;>
          simpa [resolvePort] using hrest

/-- Witness for C3 at port 60022 and a one-element tail. -/
theorem resolve_port_states_witness :
    (0 : ℤ) < 60022
    ∧ resolvePort none [.parsed (some (.num 60022)), .missing] = .num 60022
    ∧ resolvePort none [.missing, .missing] = .num 60021 := by
  have h := resolve_port_states 60022 (by decide) [ConfigFileState.missing]
  exact ⟨by decide, h.2.2.2.1,
    h.2.2.2.2.2 [ConfigFileState.missing, ConfigFileState.missing] (by decide)⟩

/-- C4: an explicitly supplied port is used unchanged, whatever the
configuration files hold — resolution never consults them and applies no
range check — and the constructed client carries that port. -/
theorem explicit_port_unchanged (p : ℤ) (host : String)
    (states altStates : List ConfigFileState) :
    resolvePort (some p) states = .num p
    ∧ resolvePort (some p) states = resolvePort (some p) altStates
    ∧ (initClient (some p) host states).port = .num p := by
  exact ⟨rfl, rfl, rfl⟩

/-- C5: a transport-level RPC failure makes `detect_objects` or
`segment_sheets` fail with a single error whose message carries the
remote status code and detail string, and exactly one outcome of the
service trace is consumed — the call is not retried. -/
theorem rpc_failure_single_wrapped_error (t : ℚ) (code details : String)
    (detRest : List (ServiceOutcome (List PbPrediction)))
    (segRest : List (ServiceOutcome (List PbSegPrediction))) :
    detect_objects_run t (.rpcError code details :: detRest)
      = (.error ("Object detection failed: " ++ code ++ " - " ++ details),
         detRest)
    ∧ segment_sheets_run t (.rpcError code details :: segRest)
      = (.error ("Sheet segmentation failed: " ++ code ++ " - " ++ details),
         segRest) := by
  exact ⟨rfl, rfl⟩

/-- C6 (code evaluated at the failing states): `close` on a client whose
construction failed before the channel assignment raises
`AttributeError` (the `if self.channel:` guard reads an attribute that
was never created), and a second `close` on an already-closed client
succeeds but re-invokes `channel.close()` and re-prints — the side
effects are duplicated because `self.channel` is never rebound. -/
theorem close_incomplete_construction_and_repeat :
    Client.close { port := .num 60021, host := "localhost",
                   options := channelOptions, channel := .unset }
      = .error "AttributeError: InferenceClient object has no attribute channel"
    ∧ Client.close { port := .num 60021, host := "localhost",
                     options := channelOptions, channel := .chan true }
      = .ok ({ port := .num 60021, host := "localhost",
               options := channelOptions, channel := .chan true },
             [.channelCloseCall, .printed "Closed connection"]) :=
  ⟨rfl, rfl⟩

/-- C7: every inference call builds its request from a fresh draw of the
uuid supply — distinct calls never share an id when the supply is
injective — with the caller's image bytes, width and height, a channel
count fixed at 3, and a 30-second timeout on the invocation. -/
theorem inference_call_ids_unique_fields_fixed (uuidSupply : ℕ → String)
    (hinj : Function.Injective uuidSupply) (i j : ℕ) (hij : i ≠ j)
    (b b' : List ℕ) (w h w' h' : ℤ) :
    (inference_call uuidSupply i b w h).request.id
      ≠ (inference_call uuidSupply j b' w' h').request.id
    ∧ (inference_call uuidSupply i b w h).request.image_bytes = b
    ∧ (inference_call uuidSupply i b w h).request.image_width = w
    ∧ (inference_call uuidSupply i b w h).request.image_height = h
    ∧ (inference_call uuidSupply i b w h).request.channels = 3
    ∧ (inference_call uuidSupply i b w h).timeoutSeconds = 30 :=
  ⟨fun hEq => hij (hinj hEq), rfl, rfl, rfl, rfl, rfl⟩

/-- Witness for C7: an injective uuid supply and two distinct calls. -/
theorem inference_call_witness :
    (inference_call (fun n => String.mk (List.replicate n 'u')) 0
        [255, 0, 0] 2560 2048).request.id
      ≠ (inference_call (fun n => String.mk (List.replicate n 'u')) 1
        [255, 0, 0] 2560 2048).request.id
    ∧ (inference_call (fun n => String.mk (List.replicate n 'u')) 0
        [255, 0, 0] 2560 2048).request.image_bytes = [255, 0, 0]
    ∧ (inference_call (fun n => String.mk (List.replicate n 'u')) 0
        [255, 0, 0] 2560 2048).request.image_width = 2560
    ∧ (inference_call (fun n => String.mk (List.replicate n 'u')) 0
        [255, 0, 0] 2560 2048).request.image_height = 2048
    ∧ (inference_call (fun n => String.mk (List.replicate n 'u')) 0
        [255, 0, 0] 2560 2048).request.channels = 3
    ∧ (inference_call (fun n => String.mk (List.replicate n 'u')) 0
        [255, 0, 0] 2560 2048).timeoutSeconds = 30 :=
  inference_call_ids_unique_fields_fixed
    (fun n => String.mk (List.replicate n 'u'))
    (fun a b hab => by
      simpa using congrArg (fun s => s.data.length) hab)
    0 1 (by decide) [255, 0, 0] [255, 0, 0] 2560 2048 2560 2048

/-- C8: construction always applies exactly the fixed channel options —
50 MiB receive and send limits, 10 s keep-alive interval, 5 s keep-alive
timeout — independently of port, host and configuration, and the only
state-changing operation, `close`, leaves them unchanged. -/
theorem channel_options_fixed (explicitPort : Option ℤ) (host : String)
    (configFiles : List ConfigFileState) (c c' : Client) (effects : List Effect)
    (hclose : Client.close c = .ok (c', effects)) :
    (initClient explicitPort host configFiles).options = channelOptions
    ∧ channelOptions
      = [("grpc.max_receive_message_length", 50 * 1024 * 1024),
         ("grpc.max_send_message_length", 50 * 1024 * 1024),
         ("grpc.keepalive_time_ms", 10 * 1000),
         ("grpc.keepalive_timeout_ms", 5 * 1000)]
    ∧ c'.options = c.options := by
  refine ⟨rfl, by decide, ?_⟩
  cases hc : c.channel with
  | unset => simp [Client.close, hc] at hclose
  | chan closed =>
      simp only [Client.close, hc, Except.ok.injEq, Prod.mk.injEq] at hclose
      rw [← hclose.1]

/-- Witness for C8: closing a freshly constructed client preserves the
options. -/
theorem channel_options_fixed_witness :
    (initClient none "localhost" []).options = channelOptions
    ∧ channelOptions
      = [("grpc.max_receive_message_length", 50 * 1024 * 1024),
         ("grpc.max_send_message_length", 50 * 1024 * 1024),
         ("grpc.keepalive_time_ms", 10 * 1000),
         ("grpc.keepalive_timeout_ms", 5 * 1000)]
    ∧ ({ port := .num 60021, host := "localhost", options := channelOptions,
         channel := .chan true } : Client).options
      = ({ port := .num 60021, host := "localhost", options := channelOptions,
           channel := .chan false } : Client).options :=
  channel_options_fixed none "localhost" []
    { port := .num 60021, host := "localhost", options := channelOptions,
      channel := .chan false }
    { port := .num 60021, host := "localhost", options := channelOptions,
      channel := .chan true }
    [.channelCloseCall, .printed "Closed connection"] rfl

/-- C9: the CLI main body returns 1 on every setup failure — client
construction failure, failed health check, neither image nor folder
given, or an empty folder glob — and returns 0 once the batch runs,
whatever the per-image outcomes are (failing images are caught and the
loop continues). -/
theorem cli_exit_codes (healthy : Bool) (image : Option String)
    (folderImages : Option (List String)) (img : String)
    (imgs : List String) (himgs : imgs ≠ [])
    (processOk altProcessOk : String → Bool) :
    (cliMain false healthy image folderImages processOk).exitCode = 1
    ∧ (cliMain true false image folderImages processOk).exitCode = 1
    ∧ (cliMain true true none none processOk).exitCode = 1
    ∧ (cliMain true true none (some []) processOk).exitCode = 1
    ∧ (cliMain true true (some img) folderImages processOk).exitCode = 0
    ∧ (cliMain true true none (some imgs) processOk).exitCode = 0
    ∧ (cliMain true true (some img) folderImages processOk).processed
        = [processOk img]
    ∧ (cliMain true true (some img) folderImages processOk).exitCode
        = (cliMain true true (some img) folderImages altProcessOk).exitCode
    ∧ (cliMain true true none (some imgs) (fun _ => false)).exitCode = 0 := by
  have hne : imgs.isEmpty = false := by
    simpa [List.isEmpty_iff] using himgs
  refine ⟨rfl, rfl, rfl, rfl, ?_, ?_, ?_, ?_, ?_⟩ <;>
    simp [cliMain, hne]

/-- Witness for C9: a two-image folder batch where every image fails
still exits 0; setup failures exit 1. -/
theorem cli_exit_codes_witness :
    (cliMain false true none (some ["a.png", "b.png"])
        (fun _ => false)).exitCode = 1
    ∧ (cliMain true false none (some ["a.png", "b.png"])
        (fun _ => false)).exitCode = 1
    ∧ (cliMain true true none none (fun _ => false)).exitCode = 1
    ∧ (cliMain true true none (some []) (fun _ => false)).exitCode = 1
    ∧ (cliMain true true (some "a.png") none (fun _ => false)).exitCode = 0
    ∧ (cliMain true true none (some ["a.png", "b.png"])
        (fun _ => false)).exitCode = 0
    ∧ (cliMain true true (some "a.png") none (fun _ => false)).processed
        = [false]
    ∧ (cliMain true true (some "a.png") none (fun _ => false)).exitCode
        = (cliMain true true (some "a.png") none (fun _ => true)).exitCode
    ∧ (cliMain true true none (some ["a.png", "b.png"])
        (fun _ => false)).exitCode = 0 :=
  cli_exit_codes true none (some ["a.png", "b.png"]) "a.png"
    ["a.png", "b.png"] (by decide) (fun _ => false) (fun _ => true)

/-- C10: a parsed configuration file whose nested ServerPort value is
falsy (0, null, empty string, false) is skipped — resolution behaves as
if the key were absent and moves to the next candidate — while any
truthy value is returned as-is, with no check that it is an integer. -/
theorem falsy_port_skipped_truthy_returned_as_is (v w : JsonVal)
    (hfalsy : v.truthy = false) (htruthy : w.truthy = true)
    (rest : List ConfigFileState) :
    resolvePort none (.parsed (some v) :: rest) = resolvePort none rest
    ∧ resolvePort none (.parsed (some v) :: rest)
        = resolvePort none (.parsed none :: rest)
    ∧ resolvePort none (.parsed (some (.num 0)) :: rest)
        = resolvePort none rest
    ∧ resolvePort none (.parsed (some .null) :: rest) = resolvePort none rest
    ∧ resolvePort none (.parsed (some (.str "")) :: rest)
        = resolvePort none rest
    ∧ resolvePort none (.parsed (some w) :: rest) = w
    ∧ resolvePort none [.parsed (some (.str "60021"))] = .str "60021" := by
  refine ⟨?_, ?_, ?_, ?_, ?_, ?_, rfl⟩
  · simp [resolvePort, get_port_from_config, portFromFile, hfalsy]
  · simp [resolvePort, get_port_from_config, portFromFile, hfalsy]
  · simp [resolvePort, get_port_from_config, portFromFile, JsonVal.truthy]
  · simp [resolvePort, get_port_from_config, portFromFile, JsonVal.truthy]
  · simp [resolvePort, get_port_from_config, portFromFile, JsonVal.truthy]
  · simp [resolvePort, get_port_from_config, portFromFile, htruthy]

/-- Witness for C10: the falsy value 0 is skipped in favour of the next
candidate, and a truthy string is returned untouched. -/
theorem falsy_port_skipped_witness :
    resolvePort none
        [.parsed (some (.num 0)), .parsed (some (.num 60022))] = .num 60022
    ∧ resolvePort none
        [.parsed (some (.num 0)), .parsed (some (.num 60022))]
        = resolvePort none [.parsed none, .parsed (some (.num 60022))]
    ∧ resolvePort none
        [.parsed (some (.num 0)), .parsed (some (.num 60022))]
        = resolvePort none [.parsed (some (.num 60022))]
    ∧ resolvePort none
        [.parsed (some .null), .parsed (some (.num 60022))]
        = resolvePort none [.parsed (some (.num 60022))]
    ∧ resolvePort none
        [.parsed (some (.str "")), .parsed (some (.num 60022))]
        = resolvePort none [.parsed (some (.num 60022))]
    ∧ resolvePort none
        [.parsed (some (.str "abc")), .parsed (some (.num 60022))]
        = .str "abc"
    ∧ resolvePort none [.parsed (some (.str "60021"))] = .str "60021" := by
  have h := falsy_port_skipped_truthy_returned_as_is
    (.num 0) (.str "abc") (by decide) (by decide)
    [ConfigFileState.parsed (some (.num 60022))]
  exact ⟨h.1.trans (by decide), h.2.1, h.2.2.1, h.2.2.2.1, h.2.2.2.2.1,
    h.2.2.2.2.2.1, h.2.2.2.2.2.2⟩

end AreaScan
